import Mathlib

/-!
# Media-app: upload service and storage diagnostic

A shallow embedding of `main.go` (the HTTP handlers `showIndex`, `handleUpload`,
`checkHealth` and the start-up routine `initGCS`) and of `diagnostic.go` (the
stand-alone `main`), followed by the properties proved about them.

Conventions of the embedding:

* The process-wide variables `gcsClient` and `gcsInitError`, the `media` table and
  the contents of the bucket are fields of an explicit `State` that every handler
  receives and returns.
* Whatever a handler obtains from outside the program during one call (the clock,
  the outcome of `io.Copy`, of `wc.Close`, of `db.Exec`, of `Bucket.Attrs`, ...) is
  an explicit argument of the handler.
* A Go `error` is represented by its message; `Option String` stands for a possibly
  nil error, `none` being `nil`.
* Log lines of `main.go` are not part of the model.
-/

namespace MediaApp

/-! ## Configuration (`main.go`, lines 21-25) -/

/-- The constant `bucketName`. -/
def bucketName : String := "my-test-media-99"

/-- The constant `uploadFolder`. -/
def uploadFolder : String := "uploads"

/-! ## Formatting helpers -/

/-- The verb `%d` of `fmt` on an integer: the decimal digits, after a minus sign for
a negative number. -/
def decimal : Int → String
  | Int.ofNat m => Nat.repr m
  | Int.negSucc m => "-" ++ Nat.repr (m + 1)

/-- Scan of `filepath.Ext` over the reversed path: stop with no extension at a path
separator, stop with the collected suffix at the first dot met. -/
def extAux : List Char → List Char → List Char
  | [], _ => []
  | c :: rest, acc =>
    if c = '/' then [] else if c = '.' then '.' :: acc else extAux rest (c :: acc)

/-- The function `filepath.Ext`: the suffix starting at the final dot of the final
element of the path, empty when that element has no dot. -/
def filepathExt (path : String) : String :=
  String.mk (extAux path.data.reverse [])

/-! ## Data model -/

/-- One row of the table `media` (`main.go`, lines 67-72). The column `uploaded_at`
holds the value of `CURRENT_TIMESTAMP` at insertion, kept here as a number of
seconds. -/
structure MediaRow where
  id : Nat
  filename : String
  url : String
  uploadedAt : Nat
deriving DecidableEq, Repr

/-- The table `media`: its rows in insertion order and the high-water mark that
`AUTOINCREMENT` keeps for the primary key. -/
structure Database where
  rows : List MediaRow
  seq : Nat
deriving DecidableEq, Repr

/-- The statement `INSERT INTO media(filename,url) VALUES(?,?)` when it succeeds:
the key is the next value of the sequence and `uploaded_at` takes its default, the
current timestamp of the database. -/
def Database.insert (db : Database) (filename url : String) (currentTimestamp : Nat) :
    Database :=
  { rows := db.rows ++ [{ id := db.seq + 1, filename := filename, url := url,
                          uploadedAt := currentTimestamp }],
    seq := db.seq + 1 }

/-- An object of the bucket: the content type set on the writer and the bytes. -/
structure GcsObject where
  contentType : String
  content : List Nat
deriving DecidableEq, Repr

/-- The bucket: object names with their objects. -/
abbrev Bucket := List (String × GcsObject)

/-- A finalised write to `name`: the object stored under that name is replaced. -/
def Bucket.put (b : Bucket) (name : String) (o : GcsObject) : Bucket :=
  (name, o) :: b.filter (fun e => decide (e.1 ≠ name))

/-- The object stored under `name`, if any. -/
def Bucket.get? (b : Bucket) (name : String) : Option GcsObject :=
  (b.find? (fun e => decide (e.1 = name))).map (fun e => e.2)

/-- The number of objects stored under `name`. -/
def Bucket.count (b : Bucket) (name : String) : Nat :=
  (b.filter (fun e => decide (e.1 = name))).length

/-- The state the handlers work on: the two process-wide variables of `main.go`
(lines 30-31), the database and the bucket. `gcsClient` is `true` when the
variable holds a client (is not nil). -/
structure State where
  gcsClient : Bool
  gcsInitError : Option String
  db : Database
  bucket : Bucket
deriving DecidableEq, Repr

/-- What `Bucket.Attrs` returns on success; only the location is used. -/
structure BucketAttrs where
  location : String
deriving DecidableEq, Repr

/-! ## Start-up (`main.go`, lines 34-55) -/

/-- The routine `initGCS`. `newClientErr` is the error of `storage.NewClient`
(which returns a nil client together with an error) and `attrs` the outcome of the
bucket attribute fetch, made only when a client was obtained. -/
def initGCS (s : State) (newClientErr : Option String) (attrs : Except String BucketAttrs) :
    State :=
  match newClientErr with
  | some err => { s with gcsClient := false, gcsInitError := some err }
  | none =>
    match attrs with
    | Except.error err => { s with gcsClient := true, gcsInitError := some err }
    | Except.ok _ => { s with gcsClient := true }

/-- The state of the process when `main` starts: both variables nil. -/
def startState (db : Database) (bucket : Bucket) : State :=
  { gcsClient := false, gcsInitError := none, db := db, bucket := bucket }

/-! ## HTTP responses -/

/-- The part of an HTTP response the handlers decide: status code, `Location`
header of a redirect, and the text the handler writes as body. -/
structure Response where
  status : Nat
  location : Option String
  body : String
deriving DecidableEq, Repr

/-- The helper `http.Error`: the message, followed by a newline, under the given
status code. -/
def httpError (msg : String) (code : Nat) : Response :=
  { status := code, location := none, body := msg ++ "\n" }

/-- The helper `http.Redirect` with the code `http.StatusSeeOther`, the only one the
handlers use: status 303 and the `Location` header; a short HTML body is written for
a GET request only. The handlers redirect to `/`, which needs no escaping. -/
def httpRedirect (method url : String) : Response :=
  { status := 303, location := some url,
    body := if method = "GET" then "<a href=\"" ++ url ++ "\">See Other</a>.\n\n" else "" }

/-! ## Index handler (`main.go`, lines 110-134) -/

/-- The query `SELECT id, filename, url, uploaded_at FROM media ORDER BY uploaded_at
DESC` when it succeeds: all rows, those with a later `uploaded_at` first. -/
def queryMedia (db : Database) : List MediaRow :=
  db.rows.insertionSort (fun a b => b.uploadedAt ≤ a.uploadedAt)

/-- One element of the slice `files` handed to the template. The timestamp is kept
as the number of the row instead of its textual rendering. -/
structure FileEntry where
  ID : String
  Filename : String
  URL : String
  UploadedAt : Nat
deriving DecidableEq, Repr

/-- The body of the loop over `rows.Next()`: one scanned row becomes one map. -/
def toEntry (r : MediaRow) : FileEntry :=
  { ID := decimal (Int.ofNat r.id), Filename := r.filename, URL := r.url,
    UploadedAt := r.uploadedAt }

/-- Result of the index handler: the status code, the error text if any, and the
slice `files` that was handed to the template. -/
structure IndexResult where
  status : Nat
  body : String
  files : List FileEntry
deriving DecidableEq, Repr

/-- The handler `showIndex`. `queryErr` is the error of `db.Query` and `renderErr`
tells whether executing the template fails. -/
def showIndex (s : State) (queryErr : Option String) (renderErr : Bool) : IndexResult :=
  match queryErr with
  | some _ => { status := 500, body := "Database error\n", files := [] }
  | none =>
    let files := (queryMedia s.db).map toEntry
    if renderErr then
      { status := 500, body := "Template rendering error\n", files := files }
    else
      { status := 200, body := "", files := files }

/-! ## Upload handler (`main.go`, lines 136-219) -/

/-- The file part that `r.FormFile("file")` returns: the name of its header and its
bytes. -/
structure UploadedFile where
  filename : String
  content : List Nat
deriving DecidableEq, Repr

/-- A request to `/upload`: its method and the outcome of `r.FormFile("file")`,
`none` when that call returns an error (field absent or unreadable). -/
structure Request where
  method : String
  file : Option UploadedFile
deriving DecidableEq, Repr

/-- What one call of the upload handler receives from outside the program. -/
structure UploadEnv where
  /-- The value of `time.Now().Unix()`. -/
  now : Int
  /-- The table behind `mime.TypeByExtension`; the empty string for an unknown
  extension. -/
  typeByExtension : String → String
  /-- The error of `io.Copy(wc, file)`. -/
  copyErr : Option String
  /-- The error of `wc.Close()`. -/
  closeErr : Option String
  /-- The error of `db.Exec`. -/
  execErr : Option String
  /-- The value of `CURRENT_TIMESTAMP` in the database. -/
  currentTimestamp : Nat

/-- A call that reaches the object store. -/
inductive GcsCall where
  | attrs
  | write (object : String)
  | close (object : String)
deriving DecidableEq, Repr

/-- Result of a handler that may touch the stores: the response, the state
afterwards and the calls made to the object store, in order. -/
structure UploadResult where
  resp : Response
  state : State
  gcsCalls : List GcsCall
deriving DecidableEq, Repr

/-- The content type chosen at lines 171-174. -/
def contentTypeOf (env : UploadEnv) (fileName : String) : String :=
  let contentType := env.typeByExtension (filepathExt fileName)
  if contentType = "" then "application/octet-stream" else contentType

/-- The object name built at line 179. -/
def objectNameOf (now : Int) (fileName : String) : String :=
  uploadFolder ++ "/" ++ decimal now ++ "-" ++ fileName

/-- The public address built at line 204. -/
def publicURLOf (objectName : String) : String :=
  "https://storage.googleapis.com/" ++ bucketName ++ "/" ++ objectName

/-- The handler `handleUpload`. An object appears in the bucket when its writer is
closed without error; a failed copy or close leaves the bucket as it was. -/
def handleUpload (s : State) (r : Request) (env : UploadEnv) : UploadResult :=
  if r.method ≠ "POST" then
    { resp := httpRedirect r.method "/", state := s, gcsCalls := [] }
  else
    match s.gcsInitError with
    | some initErr =>
      { resp := httpError ("Cloud Storage not available: " ++ initErr ++
                  ". Please check your Google Cloud credentials.") 500,
        state := s, gcsCalls := [] }
    | none =>
      if s.gcsClient = false then
        { resp := httpError "Cloud Storage client not available" 500,
          state := s, gcsCalls := [] }
      else
        match r.file with
        | none => { resp := httpError "Cannot read file" 400, state := s, gcsCalls := [] }
        | some file =>
          let fileName := file.filename
          let contentType := contentTypeOf env fileName
          let objectName := objectNameOf env.now fileName
          match env.copyErr with
          | some err =>
            { resp := httpError ("Upload failed: " ++ err) 500, state := s,
              gcsCalls := [GcsCall.write objectName] }
          | none =>
            match env.closeErr with
            | some err =>
              { resp := httpError ("Failed to finalize upload: " ++ err) 500, state := s,
                gcsCalls := [GcsCall.write objectName, GcsCall.close objectName] }
            | none =>
              let object : GcsObject := { contentType := contentType, content := file.content }
              let stored : State := { s with bucket := Bucket.put s.bucket objectName object }
              let publicURL := publicURLOf objectName
              match env.execErr with
              | some err =>
                { resp := httpError ("Database save failed: " ++ err) 500, state := stored,
                  gcsCalls := [GcsCall.write objectName, GcsCall.close objectName] }
              | none =>
                { resp := httpRedirect r.method "/",
                  state := { stored with
                    db := s.db.insert fileName publicURL env.currentTimestamp },
                  gcsCalls := [GcsCall.write objectName, GcsCall.close objectName] }

/-! ## Health check (`main.go`, lines 222-250) -/

/-- The handler `checkHealth`. `attrs` is the outcome the bucket attribute fetch has
at the time of the call; it is only consulted when the handler gets that far. The
handler reads the two process-wide variables and writes neither. -/
def checkHealth (s : State) (attrs : Except String BucketAttrs) : Response × List GcsCall :=
  match s.gcsInitError with
  | some initErr =>
    ({ status := 503, location := none,
       body := "\x7b\"status\":\"ERROR\",\"message\":\"GCS not initialized: " ++ initErr ++
         "\",\"bucket\":\"" ++ bucketName ++
         "\",\"fix\":\"Run: gcloud auth application-default login\"\x7d" }, [])
  | none =>
    if s.gcsClient = false then
      ({ status := 503, location := none,
         body := "\x7b\"status\":\"ERROR\",\"message\":\"GCS client is nil\",\"bucket\":\"" ++
           bucketName ++ "\"\x7d" }, [])
    else
      match attrs with
      | Except.error err =>
        ({ status := 503, location := none,
           body := "\x7b\"status\":\"ERROR\",\"message\":\"Cannot access bucket: " ++ err ++
             "\",\"bucket\":\"" ++ bucketName ++ "\"\x7d" }, [GcsCall.attrs])
      | Except.ok a =>
        ({ status := 200, location := none,
           body := "\x7b\"status\":\"OK\",\"message\":\"Connected to GCS\",\"bucket\":\"" ++
             bucketName ++ "\",\"location\":\"" ++ a.location ++ "\"\x7d" }, [GcsCall.attrs])

/-! ## Diagnostic utility (`diagnostic.go`) -/

namespace Diagnostic

/-- One piece of console output: a call of `fmt.Println` or `fmt.Printf` with the
text it writes, or a call of `log.Printf` with its formatted message. -/
inductive Out where
  | stdout (text : String)
  | log (text : String)
deriving DecidableEq, Repr

/-- The error values `it.Next()` can return. The loop of `main` compares the error
with `storage.ErrObjectNotExist`; the iterator of the storage client reports that
there are no more results with `iterator.Done`. -/
inductive ListError where
  | errObjectNotExist
  | iteratorDone
  | other (msg : String)
deriving DecidableEq, Repr

/-- The text of an error, as the verb `%v` prints it. -/
def ListError.message : ListError → String
  | ListError.errObjectNotExist => "storage: object doesn\x27t exist"
  | ListError.iteratorDone => "no more items in iterator"
  | ListError.other msg => msg

/-- The attributes of the bucket that `main` prints. -/
structure BucketInfo where
  Location : String
  StorageClass : String
  Created : String
deriving DecidableEq, Repr

/-- The attributes of a listed object that `main` prints. -/
structure ObjectAttrs where
  Name : String
  Size : Int
deriving DecidableEq, Repr

/-- What one run of the utility receives from outside: the error of
`storage.NewClient`, the outcome of `bucket.Attrs`, the errors of `wc.Write` and
`wc.Close`, the objects that successive calls of `it.Next()` return and the error
returned by the call after the last object. -/
structure Env where
  newClientErr : Option String
  attrs : Except String BucketInfo
  writeErr : Option String
  closeErr : Option String
  objects : List ObjectAttrs
  listEnd : ListError

/-- The line printed for a listed object (line 77). -/
def objectLine (a : ObjectAttrs) : Out :=
  Out.stdout ("   - " ++ a.Name ++ " (size: " ++ decimal a.Size ++ " bytes)\n")

/-- The loop of lines 66-79, started with `count` objects already seen. The result
is the output of the loop and, when the loop is left by `break`, the final value of
`count`; `none` means the loop ended in the `return` of line 73. -/
def listLoop : List ObjectAttrs → ListError → Nat → List Out × Option Nat
  | [], err, count =>
    if err = ListError.errObjectNotExist then ([], some count)
    else ([Out.log ("❌ ERROR listing objects: " ++ err.message ++ "\n")], none)
  | a :: rest, err, count =>
    let count := count + 1
    let printed := if count ≤ 5 then [objectLine a] else []
    let r := listLoop rest err count
    (printed ++ r.1, r.2)

/-- Step 4 of `main` (lines 61-83). -/
def listStep (env : Env) : List Out :=
  let r := listLoop env.objects env.listEnd 0
  [Out.stdout "4. Attempting to list bucket contents...\n"] ++ r.1 ++
    match r.2 with
    | none => []
    | some count =>
      [Out.stdout ("✅ Found " ++ decimal (Int.ofNat count) ++ " objects in bucket\n"),
       Out.stdout "\n=== All diagnostics passed! ===\n",
       Out.stdout "Your app should be able to upload to GCS\n"]

/-- Step 3 of `main` (lines 45-59) and what follows it. -/
def writeStep (env : Env) : List Out :=
  [Out.stdout "3. Attempting to write test file...\n"] ++
    match env.writeErr with
    | some err => [Out.log ("❌ ERROR writing file: " ++ err ++ "\n")]
    | none =>
      match env.closeErr with
      | some err => [Out.log ("❌ ERROR finalizing upload: " ++ err ++ "\n")]
      | none => [Out.stdout "✅ Successfully uploaded test file\n\n"] ++ listStep env

/-- Step 2 of `main` (lines 28-43) and what follows it. -/
def bucketStep (env : Env) : List Out :=
  [Out.stdout ("2. Attempting to access bucket: " ++ bucketName ++ "\n")] ++
    match env.attrs with
    | Except.error err =>
      [Out.log ("❌ ERROR accessing bucket: " ++ err ++ "\n"),
       Out.stdout "\nTroubleshooting:\n",
       Out.stdout "- Verify bucket exists: gsutil ls -b gs://my-test-media-99\n",
       Out.stdout "- Check permissions: gsutil iam get gs://my-test-media-99\n"]
    | Except.ok attrs =>
      [Out.stdout "✅ Successfully accessed bucket\n",
       Out.stdout ("   Location: " ++ attrs.Location ++ "\n"),
       Out.stdout ("   StorageClass: " ++ attrs.StorageClass ++ "\n"),
       Out.stdout ("   Created: " ++ attrs.Created ++ "\n\n")] ++ writeStep env

/-- The function `main` of `diagnostic.go`: the console output of one run. -/
def main (env : Env) : List Out :=
  [Out.stdout "=== GCS Diagnostic Tool ===\n\n",
   Out.stdout "1. Attempting to create GCS client with default credentials...\n"] ++
    match env.newClientErr with
    | some err =>
      [Out.log ("❌ ERROR: " ++ err ++ "\n"),
       Out.stdout "\nTroubleshooting:\n",
       Out.stdout "- Run: gcloud auth application-default login\n",
       Out.stdout "- Or set: $env:GOOGLE_APPLICATION_CREDENTIALS=\x27path/to/key.json\x27\n"]
    | none => [Out.stdout "✅ Successfully created GCS client\n\n"] ++ bucketStep env

end Diagnostic

end MediaApp

/-! ## Concrete inputs used to exercise the theorems -/

namespace MediaApp

/-- A service whose start-up succeeded, with an empty table and an empty bucket. -/
def readyState : State :=
  { gcsClient := true, gcsInitError := none, db := { rows := [], seq := 0 }, bucket := [] }

/-- A call in which every outside operation succeeds, at second 1700000000. -/
def calmEnv : UploadEnv :=
  { now := 1700000000, typeByExtension := fun _ => "", copyErr := none, closeErr := none,
    execErr := none, currentTimestamp := 1700000000 }

/-- A POST carrying the file `a-1.png` with three bytes. -/
def pngRequest : Request :=
  { method := "POST", file := some { filename := "a-1.png", content := [1, 2, 3] } }

/-- A POST without a `file` field. -/
def emptyRequest : Request := { method := "POST", file := none }

/-- The state after two uploads, of `a-1.png` and of `b.png`, handled within the same
second. -/
def tieState : State :=
  (handleUpload (handleUpload readyState pngRequest calmEnv).state
    { method := "POST", file := some { filename := "b.png", content := [4] } } calmEnv).state

/-- A table with an older and a newer row, in insertion order. -/
def twoRowState : State :=
  { readyState with
    db := { rows := [{ id := 1, filename := "old.txt", url := "u1", uploadedAt := 10 },
                     { id := 2, filename := "new.txt", url := "u2", uploadedAt := 20 }],
            seq := 2 } }

/-- A run of the diagnostic utility in which every step succeeds and the listing
returns the test object and then reports, with `iterator.Done`, that there are no
more results. -/
def doneEnv : Diagnostic.Env :=
  { newClientErr := none,
    attrs := Except.ok { Location := "US", StorageClass := "STANDARD", Created := "2024-01-01" },
    writeErr := none, closeErr := none,
    objects := [{ Name := "test-diagnostic.txt", Size := 32 }],
    listEnd := Diagnostic.ListError.iteratorDone }

/-! ## Decimal rendering -/

/-- The value of a decimal digit character. -/
def charVal (c : Char) : Nat := c.toNat - 48

/-- The number a list of decimal digit characters denotes. -/
def decValue (cs : List Char) : Nat := Nat.ofDigits 10 (cs.map charVal).reverse

theorem digitChar_ne_minus (d : Nat) (h : d < 10) : Nat.digitChar d ≠ '-' := by
  interval_cases d <;> decide

theorem charVal_digitChar (d : Nat) (h : d < 10) : charVal (Nat.digitChar d) = d := by
  interval_cases d <;> rfl

theorem toDigitsCore_eq (fuel : Nat) : ∀ (n : Nat) (ds : List Char), n < fuel → 0 < n →
    Nat.toDigitsCore 10 fuel n ds = ((Nat.digits 10 n).reverse.map Nat.digitChar) ++ ds := by
  induction fuel with
  | zero => intro n ds h; omega
  | succ fuel ih =>
    intro n ds hlt hpos
    have hd : Nat.digits 10 n = (n % 10) :: Nat.digits 10 (n / 10) :=
      Nat.digits_def' (by norm_num) hpos
    simp only [Nat.toDigitsCore]
    by_cases hq : n / 10 = 0
    · simp [hq, hd]
    · rw [if_neg hq, ih (n / 10) _ (by omega) (by omega), hd]
      simp

theorem toDigits_eq (n : Nat) (hpos : 0 < n) :
    Nat.toDigits 10 n = (Nat.digits 10 n).reverse.map Nat.digitChar := by
  unfold Nat.toDigits
  rw [toDigitsCore_eq (n + 1) n [] (by omega) hpos]
  simp

theorem minus_not_mem_toDigits (n : Nat) : '-' ∉ Nat.toDigits 10 n := by
  rcases Nat.eq_zero_or_pos n with h | h
  · subst h; decide
  · rw [toDigits_eq n h]
    intro hmem
    obtain ⟨d, hmemd, hd⟩ := List.mem_map.1 hmem
    exact digitChar_ne_minus d (Nat.digits_lt_base (by norm_num) (List.mem_reverse.1 hmemd)) hd

theorem decValue_toDigits (n : Nat) : decValue (Nat.toDigits 10 n) = n := by
  rcases Nat.eq_zero_or_pos n with h | h
  · subst h; rfl
  · unfold decValue
    rw [toDigits_eq n h, List.map_map]
    have hid : List.map (charVal ∘ Nat.digitChar) (Nat.digits 10 n).reverse =
        (Nat.digits 10 n).reverse := by
      conv_rhs => rw [← List.map_id (Nat.digits 10 n).reverse]
      apply List.map_congr_left
      intro d hd
      have hlt : d < 10 := Nat.digits_lt_base (by norm_num) (List.mem_reverse.1 hd)
      simp [charVal_digitChar d hlt]
    rw [hid, List.reverse_reverse, Nat.ofDigits_digits]

theorem toDigits_injective {m n : Nat} (h : Nat.toDigits 10 m = Nat.toDigits 10 n) : m = n := by
  have hv := congrArg decValue h
  rwa [decValue_toDigits, decValue_toDigits] at hv

theorem toDigits_ne_nil (n : Nat) : Nat.toDigits 10 n ≠ [] := by
  rcases Nat.eq_zero_or_pos n with h | h
  · subst h; decide
  · rw [toDigits_eq n h]
    intro hnil
    have h1 : Nat.digits 10 n = [] := by simpa using hnil
    exact (Nat.digits_ne_nil_iff_ne_zero.2 (by omega)) h1

/-- A list is cut at the first occurrence of a separator in one way only. -/
theorem append_sep_inj {α : Type} (sep : α) : ∀ (xs ys s t : List α), sep ∉ xs → sep ∉ ys →
    xs ++ sep :: s = ys ++ sep :: t → xs = ys ∧ s = t := by
  intro xs
  induction xs with
  | nil =>
    intro ys s t _ hy h
    cases ys with
    | nil => simpa using h
    | cons y ys =>
      simp at h
      simp [h.1] at hy
  | cons x xs ih =>
    intro ys s t hx hy h
    cases ys with
    | nil =>
      simp at h
      simp [h.1] at hx
    | cons y ys =>
      simp at h
      simp at hx hy
      obtain ⟨h1, h2⟩ := ih ys s t hx.2 hy.2 h.2
      exact ⟨by rw [h.1, h1], h2⟩

theorem decimal_ofNat_data (m : Nat) : (decimal (Int.ofNat m)).data = Nat.toDigits 10 m := rfl

theorem decimal_negSucc_data (m : Nat) :
    (decimal (Int.negSucc m)).data = '-' :: Nat.toDigits 10 (m + 1) := rfl

/-- The decimal rendering followed by a dash determines the number and what follows
the dash. -/
theorem decimal_dash_inj (a b : Int) (s t : List Char)
    (h : (decimal a).data ++ '-' :: s = (decimal b).data ++ '-' :: t) : a = b ∧ s = t := by
  cases a with
  | ofNat m =>
    cases b with
    | ofNat k =>
      rw [decimal_ofNat_data, decimal_ofNat_data] at h
      obtain ⟨h1, h2⟩ := append_sep_inj '-' _ _ s t (minus_not_mem_toDigits m)
        (minus_not_mem_toDigits k) h
      exact ⟨by rw [toDigits_injective h1], h2⟩
    | negSucc k =>
      exfalso
      rw [decimal_ofNat_data, decimal_negSucc_data] at h
      have hm := minus_not_mem_toDigits m
      cases hd : Nat.toDigits 10 m with
      | nil => exact toDigits_ne_nil m hd
      | cons c cs =>
        rw [hd] at h hm
        simp at h
        simp [h.1] at hm
  | negSucc m =>
    cases b with
    | ofNat k =>
      exfalso
      rw [decimal_ofNat_data, decimal_negSucc_data] at h
      have hk := minus_not_mem_toDigits k
      cases hd : Nat.toDigits 10 k with
      | nil => exact toDigits_ne_nil k hd
      | cons c cs =>
        rw [hd] at h hk
        simp at h
        simp [← h.1] at hk
    | negSucc k =>
      rw [decimal_negSucc_data, decimal_negSucc_data] at h
      simp only [List.cons_append, List.cons.injEq, true_and] at h
      obtain ⟨h1, h2⟩ := append_sep_inj '-' _ _ s t (minus_not_mem_toDigits (m + 1))
        (minus_not_mem_toDigits (k + 1)) h
      have h3 : m + 1 = k + 1 := toDigits_injective h1
      exact ⟨by rw [Nat.succ_injective h3], h2⟩

theorem objectNameOf_data (ts : Int) (f : String) :
    (objectNameOf ts f).data = "uploads/".data ++ ((decimal ts).data ++ '-' :: f.data) := by
  simp only [objectNameOf, uploadFolder, String.data_append, List.append_assoc]
  rfl

theorem publicURLOf_data (o : String) :
    (publicURLOf o).data = "https://storage.googleapis.com/my-test-media-99/".data ++ o.data := by
  simp only [publicURLOf, bucketName, String.data_append, List.append_assoc]
  rfl

theorem objectNameOf_inj (ts1 ts2 : Int) (f1 f2 : String)
    (h : objectNameOf ts1 f1 = objectNameOf ts2 f2) : ts1 = ts2 ∧ f1 = f2 := by
  have hd := congrArg String.data h
  rw [objectNameOf_data, objectNameOf_data] at hd
  obtain ⟨h1, h2⟩ := decimal_dash_inj ts1 ts2 _ _ (List.append_cancel_left hd)
  exact ⟨h1, String.ext h2⟩

theorem publicURLOf_inj (o1 o2 : String) (h : publicURLOf o1 = publicURLOf o2) : o1 = o2 := by
  have hd := congrArg String.data h
  rw [publicURLOf_data, publicURLOf_data] at hd
  exact String.ext (List.append_cancel_left hd)

theorem objectNameOf_eq (ts : Int) (f : String) :
    objectNameOf ts f = "uploads/" ++ decimal ts ++ "-" ++ f := rfl

theorem publicURLOf_objectNameOf (ts : Int) (f : String) :
    publicURLOf (objectNameOf ts f) =
      "https://storage.googleapis.com/my-test-media-99/uploads/" ++ decimal ts ++ "-" ++ f := by
  apply String.ext
  simp only [publicURLOf, objectNameOf, bucketName, uploadFolder, String.data_append,
    List.append_assoc]
  rfl

/-! ## Bucket and table lemmas -/

theorem Bucket.get?_put (b : Bucket) (name : String) (o : GcsObject) :
    Bucket.get? (Bucket.put b name o) name = some o := by
  simp [Bucket.get?, Bucket.put]

theorem Bucket.count_put (b : Bucket) (name : String) (o : GcsObject) :
    Bucket.count (Bucket.put b name o) name = 1 := by
  have hnil : List.filter (fun e : String × GcsObject => decide (e.1 = name))
      (List.filter (fun e : String × GcsObject => decide (e.1 ≠ name)) b) = [] := by
    rw [List.filter_eq_nil_iff]
    intro e he
    have hne := (List.mem_filter.1 he).2
    simpa using hne
  simp only [Bucket.count, Bucket.put]
  rw [List.filter_cons_of_pos (by simp), hnil]
  rfl

theorem mem_queryMedia (db : Database) (row : MediaRow) :
    row ∈ queryMedia db ↔ row ∈ db.rows :=
  (List.perm_insertionSort _ db.rows).mem_iff

theorem queryMedia_sorted (db : Database) :
    (queryMedia db).Pairwise (fun a b => b.uploadedAt ≤ a.uploadedAt) := by
  haveI : IsTotal MediaRow (fun a b => b.uploadedAt ≤ a.uploadedAt) :=
    ⟨fun a b => Nat.le_total b.uploadedAt a.uploadedAt⟩
  haveI : IsTrans MediaRow (fun a b => b.uploadedAt ≤ a.uploadedAt) :=
    ⟨fun _ _ _ hab hbc => Nat.le_trans hbc hab⟩
  exact List.sorted_insertionSort (fun a b : MediaRow => b.uploadedAt ≤ a.uploadedAt) db.rows

/-! ## The paths through `handleUpload` -/

/-- The complete result of an upload in which nothing fails. -/
theorem handleUpload_ok (s : State) (r : Request) (env : UploadEnv) (file : UploadedFile)
    (hpost : r.method = "POST") (hinit : s.gcsInitError = none) (hclient : s.gcsClient = true)
    (hfile : r.file = some file) (hcopy : env.copyErr = none) (hclose : env.closeErr = none)
    (hexec : env.execErr = none) :
    handleUpload s r env =
      { resp := httpRedirect r.method "/",
        state := { s with
          bucket := Bucket.put s.bucket (objectNameOf env.now file.filename)
            { contentType := contentTypeOf env file.filename, content := file.content },
          db := s.db.insert file.filename (publicURLOf (objectNameOf env.now file.filename))
            env.currentTimestamp },
        gcsCalls := [GcsCall.write (objectNameOf env.now file.filename),
          GcsCall.close (objectNameOf env.now file.filename)] } := by
  simp [handleUpload, hpost, hinit, hclient, hfile, hcopy, hclose, hexec]

/-- A POST answered with 303 went through every step without a failure. -/
theorem handleUpload_303 (s : State) (r : Request) (env : UploadEnv)
    (hpost : r.method = "POST") (hok : (handleUpload s r env).resp.status = 303) :
    s.gcsInitError = none ∧ s.gcsClient = true ∧ (∃ file, r.file = some file) ∧
      env.copyErr = none ∧ env.closeErr = none ∧ env.execErr = none := by
  unfold handleUpload at hok
  rw [if_neg (by simp [hpost])] at hok
  cases hinit : s.gcsInitError with
  | some e => simp [hinit, httpError] at hok
  | none =>
    cases hclient : s.gcsClient with
    | false => simp [hinit, hclient, httpError] at hok
    | true =>
      cases hfile : r.file with
      | none => simp [hinit, hclient, hfile, httpError] at hok
      | some file =>
        cases hcopy : env.copyErr with
        | some e => simp [hinit, hclient, hfile, hcopy, httpError] at hok
        | none =>
          cases hclose : env.closeErr with
          | some e => simp [hinit, hclient, hfile, hcopy, hclose, httpError] at hok
          | none =>
            cases hexec : env.execErr with
            | some e => simp [hinit, hclient, hfile, hcopy, hclose, hexec, httpError] at hok
            | none => exact ⟨rfl, rfl, ⟨file, rfl⟩, rfl, rfl, rfl⟩

/-! ## Upload: success -/

/-- C1. A POST to `/upload` answered with 303, carrying a file named `F` with content
`C` at Unix time `env.now`, appends to the table one row whose filename is `F` and
whose url is the public address of `uploads/<decimal time>-F`; afterwards the bucket
holds under that path an object with content exactly `C`, and the listing of the
index handler run on the resulting state contains the entry of that row. -/
theorem handleUpload_success_recorded (s : State) (r : Request) (env : UploadEnv)
    (F : String) (C : List Nat) (renderErr : Bool)
    (hpost : r.method = "POST") (hfile : r.file = some { filename := F, content := C })
    (hok : (handleUpload s r env).resp.status = 303) :
    (handleUpload s r env).state.db.rows = s.db.rows ++
        [{ id := s.db.seq + 1, filename := F,
           url := "https://storage.googleapis.com/my-test-media-99/uploads/" ++
             decimal env.now ++ "-" ++ F,
           uploadedAt := env.currentTimestamp }] ∧
      (Bucket.get? (handleUpload s r env).state.bucket
          ("uploads/" ++ decimal env.now ++ "-" ++ F)).map GcsObject.content = some C ∧
      ({ ID := decimal (Int.ofNat (s.db.seq + 1)), Filename := F,
         URL := "https://storage.googleapis.com/my-test-media-99/uploads/" ++
           decimal env.now ++ "-" ++ F,
         UploadedAt := env.currentTimestamp } : FileEntry) ∈
        (showIndex (handleUpload s r env).state none renderErr).files := by
  obtain ⟨hinit, hclient, -, hcopy, hclose, hexec⟩ := handleUpload_303 s r env hpost hok
  rw [handleUpload_ok s r env _ hpost hinit hclient hfile hcopy hclose hexec]
  refine ⟨?_, ?_, ?_⟩
  · simp [Database.insert, publicURLOf_objectNameOf]
  · simp only [← objectNameOf_eq]
    rw [Bucket.get?_put]
    rfl
  · have hmem : MediaRow.mk (s.db.seq + 1) F (publicURLOf (objectNameOf env.now F))
        env.currentTimestamp ∈ queryMedia (s.db.insert F (publicURLOf (objectNameOf env.now F))
          env.currentTimestamp) := by
      rw [mem_queryMedia]
      simp [Database.insert]
    have hfiles : ∀ st : State, (showIndex st none renderErr).files =
        (queryMedia st.db).map toEntry := by
      intro st
      cases renderErr <;> rfl
    rw [hfiles]
    refine List.mem_map.2 ⟨_, hmem, ?_⟩
    simp [toEntry, publicURLOf_objectNameOf]

theorem handleUpload_success_recorded_witness :
    pngRequest.method = "POST" ∧
      pngRequest.file = some { filename := "a-1.png", content := [1, 2, 3] } ∧
      (handleUpload readyState pngRequest calmEnv).resp.status = 303 ∧
      ((handleUpload readyState pngRequest calmEnv).state.db.rows = readyState.db.rows ++
        [{ id := readyState.db.seq + 1, filename := "a-1.png",
           url := "https://storage.googleapis.com/my-test-media-99/uploads/" ++
             decimal calmEnv.now ++ "-" ++ "a-1.png",
           uploadedAt := calmEnv.currentTimestamp }] ∧
      (Bucket.get? (handleUpload readyState pngRequest calmEnv).state.bucket
          ("uploads/" ++ decimal calmEnv.now ++ "-" ++ "a-1.png")).map GcsObject.content =
        some [1, 2, 3] ∧
      ({ ID := decimal (Int.ofNat (readyState.db.seq + 1)), Filename := "a-1.png",
         URL := "https://storage.googleapis.com/my-test-media-99/uploads/" ++
           decimal calmEnv.now ++ "-" ++ "a-1.png",
         UploadedAt := calmEnv.currentTimestamp } : FileEntry) ∈
        (showIndex (handleUpload readyState pngRequest calmEnv).state none false).files) :=
  ⟨by decide, by decide, by decide,
    handleUpload_success_recorded readyState pngRequest calmEnv "a-1.png" [1, 2, 3] false
      (by decide) (by decide) (by decide)⟩

/-! ## Upload: missing file -/

/-- C2, as stated, fails: after a start-up in which the client could not be created,
a POST without a `file` field is answered with 500, not with 400. -/
theorem handleUpload_missing_file_not_always_400 :
    (handleUpload (initGCS (startState { rows := [], seq := 0 } []) (some "no credentials")
        (Except.error "unreachable")) emptyRequest calmEnv).resp.status = 500 ∧
      emptyRequest.method = "POST" ∧ emptyRequest.file = none := by
  decide

/-- C2, amended. For every POST to `/upload` whose form has no (or an unreadable)
`file` field and for every state of the service, no call reaches the object store
and the state, the table included, is unchanged, so the row count is the same; the
status is 400 when start-up recorded no initialisation error and a client exists,
and 500 otherwise. -/
theorem handleUpload_missing_file (s : State) (r : Request) (env : UploadEnv)
    (hpost : r.method = "POST") (hfile : r.file = none) :
    (handleUpload s r env).gcsCalls = [] ∧ (handleUpload s r env).state = s ∧
      (handleUpload s r env).state.db.rows.length = s.db.rows.length ∧
      (handleUpload s r env).resp.status =
        (if s.gcsInitError = none ∧ s.gcsClient = true then 400 else 500) := by
  cases hinit : s.gcsInitError with
  | some e => simp [handleUpload, hpost, hinit, httpError]
  | none =>
    cases hclient : s.gcsClient with
    | false => simp [handleUpload, hpost, hinit, hclient, httpError]
    | true => simp [handleUpload, hpost, hinit, hclient, hfile, httpError]

theorem handleUpload_missing_file_witness :
    emptyRequest.method = "POST" ∧ emptyRequest.file = none ∧
      ((handleUpload readyState emptyRequest calmEnv).gcsCalls = [] ∧
        (handleUpload readyState emptyRequest calmEnv).state = readyState ∧
        (handleUpload readyState emptyRequest calmEnv).state.db.rows.length =
          readyState.db.rows.length ∧
        (handleUpload readyState emptyRequest calmEnv).resp.status =
          (if readyState.gcsInitError = none ∧ readyState.gcsClient = true then 400 else 500)) :=
  ⟨by decide, by decide,
    handleUpload_missing_file readyState emptyRequest calmEnv (by decide) (by decide)⟩

/-! ## Upload: start-up failure -/

/-- C4. When `initGCS` failed with error `e` (the client could not be created, or the
client was created and the bucket attribute fetch failed), every POST to `/upload`
is answered with 500 and a body that contains `e`; no call reaches the object store
and the state, with the table and the bucket, is unchanged. -/
theorem handleUpload_after_failed_init (s0 : State) (newClientErr : Option String)
    (attrs : Except String BucketAttrs) (e : String) (r : Request) (env : UploadEnv)
    (hfail : newClientErr = some e ∨ (newClientErr = none ∧ attrs = Except.error e))
    (hpost : r.method = "POST") :
    (handleUpload (initGCS s0 newClientErr attrs) r env).resp.status = 500 ∧
      (handleUpload (initGCS s0 newClientErr attrs) r env).resp.body =
        "Cloud Storage not available: " ++ e ++
          ". Please check your Google Cloud credentials.\n" ∧
      (handleUpload (initGCS s0 newClientErr attrs) r env).gcsCalls = [] ∧
      (handleUpload (initGCS s0 newClientErr attrs) r env).state =
        initGCS s0 newClientErr attrs := by
  have hinit : (initGCS s0 newClientErr attrs).gcsInitError = some e := by
    rcases hfail with h | ⟨h1, h2⟩
    · simp [initGCS, h]
    · simp [initGCS, h1, h2]
  have hbody : "Cloud Storage not available: " ++ e ++
      ". Please check your Google Cloud credentials." ++ "\n" =
      "Cloud Storage not available: " ++ e ++
        ". Please check your Google Cloud credentials.\n" := by
    apply String.ext
    simp only [String.data_append, List.append_assoc]
    rfl
  simp [handleUpload, hpost, hinit, httpError, hbody]

theorem handleUpload_after_failed_init_witness :
    ((none : Option String) = some "bucket not found" ∨
        ((none : Option String) = none ∧
          (Except.error "bucket not found" : Except String BucketAttrs) =
            Except.error "bucket not found")) ∧
      pngRequest.method = "POST" ∧
      ((handleUpload (initGCS (startState { rows := [], seq := 0 } []) none
          (Except.error "bucket not found")) pngRequest calmEnv).resp.status = 500 ∧
        (handleUpload (initGCS (startState { rows := [], seq := 0 } []) none
          (Except.error "bucket not found")) pngRequest calmEnv).resp.body =
          "Cloud Storage not available: " ++ "bucket not found" ++
            ". Please check your Google Cloud credentials.\n" ∧
        (handleUpload (initGCS (startState { rows := [], seq := 0 } []) none
          (Except.error "bucket not found")) pngRequest calmEnv).gcsCalls = [] ∧
        (handleUpload (initGCS (startState { rows := [], seq := 0 } []) none
          (Except.error "bucket not found")) pngRequest calmEnv).state =
          initGCS (startState { rows := [], seq := 0 } []) none
            (Except.error "bucket not found")) :=
  ⟨Or.inr ⟨rfl, rfl⟩, by decide,
    handleUpload_after_failed_init (startState { rows := [], seq := 0 } []) none
      (Except.error "bucket not found") "bucket not found" pngRequest calmEnv
      (Or.inr ⟨rfl, rfl⟩) (by decide)⟩

/-! ## Upload: failed write -/

/-- C5. For every POST to `/upload` with a readable file, if `io.Copy` to the writer
fails or closing the writer fails, the status is 500 and the table is unchanged: no
row is inserted. -/
theorem handleUpload_write_failure (s : State) (r : Request) (env : UploadEnv)
    (file : UploadedFile) (hpost : r.method = "POST") (hfile : r.file = some file)
    (hfail : env.copyErr ≠ none ∨ env.closeErr ≠ none) :
    (handleUpload s r env).resp.status = 500 ∧ (handleUpload s r env).state.db = s.db := by
  cases hinit : s.gcsInitError with
  | some e => simp [handleUpload, hpost, hinit, httpError]
  | none =>
    cases hclient : s.gcsClient with
    | false => simp [handleUpload, hpost, hinit, hclient, httpError]
    | true =>
      cases hcopy : env.copyErr with
      | some e => simp [handleUpload, hpost, hinit, hclient, hfile, hcopy, httpError]
      | none =>
        cases hclose : env.closeErr with
        | some e => simp [handleUpload, hpost, hinit, hclient, hfile, hcopy, hclose, httpError]
        | none => simp [hcopy, hclose] at hfail

theorem handleUpload_write_failure_witness :
    pngRequest.method = "POST" ∧
      pngRequest.file = some { filename := "a-1.png", content := [1, 2, 3] } ∧
      ({ calmEnv with closeErr := some "connection reset" }.copyErr ≠ none ∨
        { calmEnv with closeErr := some "connection reset" }.closeErr ≠ none) ∧
      ((handleUpload readyState pngRequest
          { calmEnv with closeErr := some "connection reset" }).resp.status = 500 ∧
        (handleUpload readyState pngRequest
          { calmEnv with closeErr := some "connection reset" }).state.db = readyState.db) :=
  ⟨by decide, by decide, Or.inr (by decide),
    handleUpload_write_failure readyState pngRequest
      { calmEnv with closeErr := some "connection reset" }
      { filename := "a-1.png", content := [1, 2, 3] } (by decide) (by decide)
      (Or.inr (by decide))⟩

/-! ## Upload: failed insert -/

/-- C6. For every POST to `/upload` that gets as far as writing (start-up succeeded,
the file is readable), in which the copy and the close succeed and `db.Exec` fails,
the status is 500, the table is unchanged, and the bucket holds the written object,
with the content of the file, under its path `uploads/<decimal time>-<filename>`:
it is not deleted. -/
theorem handleUpload_insert_failure (s : State) (r : Request) (env : UploadEnv)
    (file : UploadedFile) (e : String)
    (hpost : r.method = "POST") (hinit : s.gcsInitError = none) (hclient : s.gcsClient = true)
    (hfile : r.file = some file) (hcopy : env.copyErr = none) (hclose : env.closeErr = none)
    (hexec : env.execErr = some e) :
    (handleUpload s r env).resp.status = 500 ∧ (handleUpload s r env).state.db = s.db ∧
      Bucket.get? (handleUpload s r env).state.bucket
          ("uploads/" ++ decimal env.now ++ "-" ++ file.filename) =
        some { contentType := contentTypeOf env file.filename, content := file.content } ∧
      (handleUpload s r env).gcsCalls =
        [GcsCall.write ("uploads/" ++ decimal env.now ++ "-" ++ file.filename),
         GcsCall.close ("uploads/" ++ decimal env.now ++ "-" ++ file.filename)] := by
  simp only [← objectNameOf_eq]
  simp [handleUpload, hpost, hinit, hclient, hfile, hcopy, hclose, hexec, httpError,
    Bucket.get?_put]

theorem handleUpload_insert_failure_witness :
    pngRequest.method = "POST" ∧ readyState.gcsInitError = none ∧
      readyState.gcsClient = true ∧
      pngRequest.file = some { filename := "a-1.png", content := [1, 2, 3] } ∧
      { calmEnv with execErr := some "database is locked" }.copyErr = none ∧
      { calmEnv with execErr := some "database is locked" }.closeErr = none ∧
      { calmEnv with execErr := some "database is locked" }.execErr =
        some "database is locked" ∧
      ((handleUpload readyState pngRequest
          { calmEnv with execErr := some "database is locked" }).resp.status = 500 ∧
        (handleUpload readyState pngRequest
          { calmEnv with execErr := some "database is locked" }).state.db = readyState.db ∧
        Bucket.get? (handleUpload readyState pngRequest
            { calmEnv with execErr := some "database is locked" }).state.bucket
            ("uploads/" ++ decimal 1700000000 ++ "-" ++ "a-1.png") =
          some { contentType := "application/octet-stream", content := [1, 2, 3] } ∧
        (handleUpload readyState pngRequest
            { calmEnv with execErr := some "database is locked" }).gcsCalls =
          [GcsCall.write ("uploads/" ++ decimal 1700000000 ++ "-" ++ "a-1.png"),
           GcsCall.close ("uploads/" ++ decimal 1700000000 ++ "-" ++ "a-1.png")]) :=
  ⟨by decide, by decide, by decide, by decide, by decide, by decide, by decide,
    handleUpload_insert_failure readyState pngRequest
      { calmEnv with execErr := some "database is locked" }
      { filename := "a-1.png", content := [1, 2, 3] } "database is locked"
      (by decide) (by decide) (by decide) (by decide) (by decide) (by decide) (by decide)⟩

/-! ## Upload: two uploads in one second -/

/-- C8. Two successful uploads of files named `F` that both happen in second `ts`
are written to the same object path `uploads/<decimal ts>-F`; after both, the table
has exactly two more rows, which carry the same url, while the bucket holds exactly
one object under that path, with the content of the second upload. -/
theorem handleUpload_same_second_collision (s : State) (r1 r2 : Request)
    (env1 env2 : UploadEnv) (F : String) (C1 C2 : List Nat) (ts : Int)
    (hpost1 : r1.method = "POST") (hpost2 : r2.method = "POST")
    (hfile1 : r1.file = some { filename := F, content := C1 })
    (hfile2 : r2.file = some { filename := F, content := C2 })
    (hts1 : env1.now = ts) (hts2 : env2.now = ts)
    (hok1 : (handleUpload s r1 env1).resp.status = 303)
    (hok2 : (handleUpload (handleUpload s r1 env1).state r2 env2).resp.status = 303) :
    (handleUpload s r1 env1).gcsCalls =
        [GcsCall.write ("uploads/" ++ decimal ts ++ "-" ++ F),
         GcsCall.close ("uploads/" ++ decimal ts ++ "-" ++ F)] ∧
      (handleUpload (handleUpload s r1 env1).state r2 env2).gcsCalls =
        [GcsCall.write ("uploads/" ++ decimal ts ++ "-" ++ F),
         GcsCall.close ("uploads/" ++ decimal ts ++ "-" ++ F)] ∧
      (handleUpload (handleUpload s r1 env1).state r2 env2).state.db.rows =
        s.db.rows ++
          [{ id := s.db.seq + 1, filename := F,
             url := "https://storage.googleapis.com/my-test-media-99/uploads/" ++
               decimal ts ++ "-" ++ F,
             uploadedAt := env1.currentTimestamp },
           { id := s.db.seq + 2, filename := F,
             url := "https://storage.googleapis.com/my-test-media-99/uploads/" ++
               decimal ts ++ "-" ++ F,
             uploadedAt := env2.currentTimestamp }] ∧
      (handleUpload (handleUpload s r1 env1).state r2 env2).state.db.rows.length =
        s.db.rows.length + 2 ∧
      Bucket.count (handleUpload (handleUpload s r1 env1).state r2 env2).state.bucket
        ("uploads/" ++ decimal ts ++ "-" ++ F) = 1 ∧
      (Bucket.get? (handleUpload (handleUpload s r1 env1).state r2 env2).state.bucket
        ("uploads/" ++ decimal ts ++ "-" ++ F)).map GcsObject.content = some C2 := by
  obtain ⟨hinit, hclient, -, hcopy1, hclose1, hexec1⟩ := handleUpload_303 s r1 env1 hpost1 hok1
  have h1 := handleUpload_ok s r1 env1 _ hpost1 hinit hclient hfile1 hcopy1 hclose1 hexec1
  obtain ⟨hinit2, hclient2, -, hcopy2, hclose2, hexec2⟩ :=
    handleUpload_303 (handleUpload s r1 env1).state r2 env2 hpost2 hok2
  rw [handleUpload_ok (handleUpload s r1 env1).state r2 env2 _ hpost2 hinit2 hclient2 hfile2
    hcopy2 hclose2 hexec2, h1]
  simp only [← objectNameOf_eq, hts1, hts2]
  refine ⟨trivial, trivial, ?_, ?_, ?_, ?_⟩
  · simp [Database.insert, publicURLOf_objectNameOf]
  · simp [Database.insert]
  · exact Bucket.count_put _ _ _
  · rw [Bucket.get?_put]
    rfl

theorem handleUpload_same_second_collision_witness :
    pngRequest.method = "POST" ∧
      { pngRequest with file := some { filename := "a-1.png", content := [9] } }.method =
        "POST" ∧
      pngRequest.file = some { filename := "a-1.png", content := [1, 2, 3] } ∧
      { pngRequest with file := some { filename := "a-1.png", content := [9] } }.file =
        some { filename := "a-1.png", content := [9] } ∧
      calmEnv.now = 1700000000 ∧
      (handleUpload readyState pngRequest calmEnv).resp.status = 303 ∧
      (handleUpload (handleUpload readyState pngRequest calmEnv).state
        { pngRequest with file := some { filename := "a-1.png", content := [9] } }
        calmEnv).resp.status = 303 ∧
      Bucket.count (handleUpload (handleUpload readyState pngRequest calmEnv).state
        { pngRequest with file := some { filename := "a-1.png", content := [9] } }
        calmEnv).state.bucket ("uploads/" ++ decimal 1700000000 ++ "-" ++ "a-1.png") = 1 ∧
      (handleUpload (handleUpload readyState pngRequest calmEnv).state
        { pngRequest with file := some { filename := "a-1.png", content := [9] } }
        calmEnv).state.db.rows.length = readyState.db.rows.length + 2 :=
  ⟨by decide, by decide, by decide, by decide, by decide, by decide, by decide,
    (handleUpload_same_second_collision readyState pngRequest
      { pngRequest with file := some { filename := "a-1.png", content := [9] } }
      calmEnv calmEnv "a-1.png" [1, 2, 3] [9] 1700000000
      (by decide) (by decide) (by decide) (by decide) (by decide) (by decide)
      (by decide) (by decide)).2.2.2.2.1,
    (handleUpload_same_second_collision readyState pngRequest
      { pngRequest with file := some { filename := "a-1.png", content := [9] } }
      calmEnv calmEnv "a-1.png" [1, 2, 3] [9] 1700000000
      (by decide) (by decide) (by decide) (by decide) (by decide) (by decide)
      (by decide) (by decide)).2.2.2.1⟩

/-! ## Object paths -/

/-- C10. The object path built by the upload handler, `uploads/<decimal ts>-<filename>`,
and with it the public url, is injective in the pair of timestamp and filename: equal
paths, or equal urls, force equal timestamps and equal filenames, whatever characters
the filenames contain. -/
theorem objectName_injective (ts1 ts2 : Int) (f1 f2 : String)
    (h : objectNameOf ts1 f1 = objectNameOf ts2 f2 ∨
      publicURLOf (objectNameOf ts1 f1) = publicURLOf (objectNameOf ts2 f2)) :
    ts1 = ts2 ∧ f1 = f2 := by
  rcases h with h | h
  · exact objectNameOf_inj ts1 ts2 f1 f2 h
  · exact objectNameOf_inj ts1 ts2 f1 f2 (publicURLOf_inj _ _ h)

theorem objectName_injective_witness :
    (objectNameOf 17 "2-3.txt" = objectNameOf 17 "2-3.txt" ∨
        publicURLOf (objectNameOf 17 "2-3.txt") = publicURLOf (objectNameOf 17 "2-3.txt")) ∧
      ((17 : Int) = 17 ∧ "2-3.txt" = "2-3.txt") :=
  ⟨Or.inl rfl, objectName_injective 17 17 "2-3.txt" "2-3.txt" (Or.inl rfl)⟩

/-! ## Health check -/

/-- C3, as stated, fails: after a start-up in which the client was created and the
bucket attribute fetch failed, a client exists, and a health check made when the
fetch would succeed is still answered with 503, without any fetch. -/
theorem checkHealth_keeps_startup_failure :
    (initGCS (startState { rows := [], seq := 0 } []) none
        (Except.error "bucket not found")).gcsClient = true ∧
      (checkHealth (initGCS (startState { rows := [], seq := 0 } []) none
        (Except.error "bucket not found")) (Except.ok { location := "US" })).1.status = 503 ∧
      (checkHealth (initGCS (startState { rows := [], seq := 0 } []) none
        (Except.error "bucket not found")) (Except.ok { location := "US" })).2 = [] := by
  decide

/-- C3, amended. For every health-check call made while an object-store client
exists: the status is 503 if the bucket attribute fetch fails at the time of the
call; if the fetch succeeds at that time, the status is 200 when start-up recorded
no initialisation error and 503 when it recorded one, in which case no fetch is
made. The handler stores nothing, so with no recorded initialisation error a service
answering 503 while the bucket is unreachable answers 200 once it is reachable. -/
theorem checkHealth_status (s : State) (e : String) (a : BucketAttrs)
    (hclient : s.gcsClient = true) :
    (checkHealth s (Except.error e)).1.status = 503 ∧
      (checkHealth s (Except.ok a)).1.status = (if s.gcsInitError = none then 200 else 503) ∧
      (checkHealth s (Except.ok a)).2 =
        (if s.gcsInitError = none then [GcsCall.attrs] else []) := by
  cases hinit : s.gcsInitError with
  | some e0 => simp [checkHealth, hinit]
  | none => simp [checkHealth, hinit, hclient]

theorem checkHealth_status_witness :
    readyState.gcsClient = true ∧
      (checkHealth readyState (Except.error "timeout")).1.status = 503 ∧
      (checkHealth readyState (Except.ok { location := "US" })).1.status = 200 :=
  ⟨by decide,
    (checkHealth_status readyState "timeout" { location := "US" } (by decide)).1,
    (checkHealth_status readyState "timeout" { location := "US" } (by decide)).2.1⟩

/-! ## Index listing -/

theorem showIndex_files (s : State) (renderErr : Bool) :
    (showIndex s none renderErr).files = (queryMedia s.db).map toEntry := by
  cases renderErr <;> rfl

/-- C7, as stated, fails: two uploads handled within one second of the database clock
leave two rows with the same `uploaded_at`; the listing shows both, and its
timestamps are not strictly descending. -/
theorem showIndex_not_strictly_descending :
    (showIndex tieState none false).files.map FileEntry.UploadedAt =
        [1700000000, 1700000000] ∧
      ¬ (showIndex tieState none false).files.Pairwise
        (fun a b => b.UploadedAt < a.UploadedAt) := by
  decide

/-- C7, amended. For every content of the table, the index handler lists all records
(its listing is a rearrangement of the rows) in descending, not necessarily strictly
descending, order of `uploaded_at`: no entry is followed by one with a later
timestamp, so of two listed records with timestamps `t1 < t2` the one of `t2` stands
before the one of `t1`; an empty table gives status 200 with an empty list. -/
theorem showIndex_newest_first (s : State) (renderErr : Bool) :
    List.Perm (showIndex s none renderErr).files (s.db.rows.map toEntry) ∧
      (showIndex s none renderErr).files.Pairwise (fun a b => b.UploadedAt ≤ a.UploadedAt) ∧
      (∀ (i j : Nat) (x y : FileEntry), (showIndex s none renderErr).files[i]? = some x →
        (showIndex s none renderErr).files[j]? = some y →
        x.UploadedAt < y.UploadedAt → j < i) ∧
      showIndex { s with db := { rows := [], seq := s.db.seq } } none false =
        { status := 200, body := "", files := [] } := by
  have hsorted : (showIndex s none renderErr).files.Pairwise
      (fun a b => b.UploadedAt ≤ a.UploadedAt) := by
    rw [showIndex_files, List.pairwise_map]
    exact queryMedia_sorted s.db
  refine ⟨?_, hsorted, ?_, rfl⟩
  · rw [showIndex_files]
    exact (List.perm_insertionSort _ s.db.rows).map toEntry
  · intro i j x y hx hy hlt
    obtain ⟨hi, hxi⟩ := List.getElem?_eq_some_iff.1 hx
    obtain ⟨hj, hyj⟩ := List.getElem?_eq_some_iff.1 hy
    by_contra hnot
    rcases Nat.lt_or_ge i j with hij | hij
    · have hle := List.pairwise_iff_getElem.1 hsorted i j hi hj hij
      rw [hxi, hyj] at hle
      omega
    · have hji : i = j := by omega
      subst hji
      rw [hxi] at hyj
      subst hyj
      omega

theorem showIndex_newest_first_witness :
    (showIndex twoRowState none false).files[1]? =
        some { ID := "1", Filename := "old.txt", URL := "u1", UploadedAt := 10 } ∧
      (showIndex twoRowState none false).files[0]? =
        some { ID := "2", Filename := "new.txt", URL := "u2", UploadedAt := 20 } ∧
      (10 : Nat) < 20 ∧ (0 : Nat) < 1 :=
  ⟨by decide, by decide, by decide,
    (showIndex_newest_first twoRowState false).2.2.1 1 0
      { ID := "1", Filename := "old.txt", URL := "u1", UploadedAt := 10 }
      { ID := "2", Filename := "new.txt", URL := "u2", UploadedAt := 20 }
      (by decide) (by decide) (by decide)⟩

/-! ## Diagnostic utility: the listing loop -/

namespace Diagnostic

/-- The loop prints the objects among the first five seen and stops at the first
error: it leaves by `break`, with the number of objects seen, only when the error is
`storage.ErrObjectNotExist`; with every other error it logs the error and returns. -/
theorem listLoop_eq (err : ListError) : ∀ (objs : List ObjectAttrs) (count : Nat),
    listLoop objs err count =
      ((objs.take (5 - count)).map objectLine ++
        (if err = ListError.errObjectNotExist then []
         else [Out.log ("❌ ERROR listing objects: " ++ err.message ++ "\n")]),
       if err = ListError.errObjectNotExist then some (count + objs.length) else none) := by
  intro objs
  induction objs with
  | nil =>
    intro count
    by_cases h : err = ListError.errObjectNotExist <;> simp [listLoop, h]
  | cons a rest ih =>
    intro count
    simp only [listLoop, ih]
    by_cases hc : count + 1 ≤ 5
    · have h5 : 5 - count = (5 - (count + 1)) + 1 := by omega
      rw [if_pos hc, h5, List.take_succ_cons]
      refine Prod.ext ?_ ?_
      · simp
      · simp only [List.length_cons]
        split_ifs
        · exact congrArg some (by omega)
        · rfl
    · have h5 : 5 - count = 0 := by omega
      have h6 : 5 - (count + 1) = 0 := by omega
      rw [if_neg hc, h5, h6]
      refine Prod.ext ?_ ?_
      · simp
      · simp only [List.length_cons]
        split_ifs
        · exact congrArg some (by omega)
        · rfl

/-- When the error that ends the listing is `storage.ErrObjectNotExist`, step 4 prints
the first five objects at most, the count and the closing lines. -/
theorem listStep_errObjectNotExist (env : Env)
    (hend : env.listEnd = ListError.errObjectNotExist) :
    listStep env =
      [Out.stdout "4. Attempting to list bucket contents...\n"] ++
        (env.objects.take 5).map objectLine ++
        [Out.stdout ("✅ Found " ++ decimal (Int.ofNat env.objects.length) ++
           " objects in bucket\n"),
         Out.stdout "\n=== All diagnostics passed! ===\n",
         Out.stdout "Your app should be able to upload to GCS\n"] := by
  simp [listStep, listLoop_eq, hend]

/-- When the error that ends the listing is any other one, `iterator.Done` included,
step 4 prints the first five objects at most, logs the error and stops. -/
theorem listStep_other_error (env : Env)
    (hend : env.listEnd ≠ ListError.errObjectNotExist) :
    listStep env =
      [Out.stdout "4. Attempting to list bucket contents...\n"] ++
        (env.objects.take 5).map objectLine ++
        [Out.log ("❌ ERROR listing objects: " ++ env.listEnd.message ++ "\n")] := by
  simp [listStep, listLoop_eq, hend]

end Diagnostic

/-- C9 at a run the utility really meets: every step succeeds and the listing
returns one object and then `iterator.Done`. The utility prints that object, logs
the end of the listing as an error and returns; the lines reporting the number of
objects and that all diagnostics passed are not printed. -/
theorem diagnostic_stops_at_iterator_done :
    Diagnostic.main doneEnv =
        [Diagnostic.Out.stdout "=== GCS Diagnostic Tool ===\n\n",
         Diagnostic.Out.stdout
           "1. Attempting to create GCS client with default credentials...\n",
         Diagnostic.Out.stdout "✅ Successfully created GCS client\n\n",
         Diagnostic.Out.stdout "2. Attempting to access bucket: my-test-media-99\n",
         Diagnostic.Out.stdout "✅ Successfully accessed bucket\n",
         Diagnostic.Out.stdout "   Location: US\n",
         Diagnostic.Out.stdout "   StorageClass: STANDARD\n",
         Diagnostic.Out.stdout "   Created: 2024-01-01\n\n",
         Diagnostic.Out.stdout "3. Attempting to write test file...\n",
         Diagnostic.Out.stdout "✅ Successfully uploaded test file\n\n",
         Diagnostic.Out.stdout "4. Attempting to list bucket contents...\n",
         Diagnostic.Out.stdout "   - test-diagnostic.txt (size: 32 bytes)\n",
         Diagnostic.Out.log "❌ ERROR listing objects: no more items in iterator\n"] ∧
      Diagnostic.Out.stdout "✅ Found 1 objects in bucket\n" ∉ Diagnostic.main doneEnv ∧
      Diagnostic.Out.stdout "\n=== All diagnostics passed! ===\n" ∉
        Diagnostic.main doneEnv := by
  decide

end MediaApp
